import Mathlib

/-!
Shallow embedding of the aggregation core of the cloud-weather-dashboard
repository.

Provider layer (src/unnamed/part_002 = AWS Lambda fetcher, src/unnamed/part_001
= Azure function, src/lambda/gcp/index.js = GCP service; the three copies of
createAggregatedWeather / storeWeatherData / fetchWeatherForLocation are
textually identical in their aggregation logic):
  a source reading is the normalized object produced by one fetchXData call;
  numeric JS values are idealized as rationals; a field that may be undefined
  is an Option; the results of the aggregation arithmetic are JS numbers with
  explicit NaN and infinities, so a division by zero yields NaN for a zero
  numerator and a signed infinity otherwise.

Cross-cloud layer (src/unnamed/part_003): calculateConsensus,
calculateVariations, calculateReliability, calculateAgreement,
calculateDataFreshness, createCrossCloudAggregation, the Lambda handler, and
the Next.js route (src/src/app/api/aggregation/weather/route.ts).
-/

/-- One normalized source reading, as built by fetchOpenWeatherData /
fetchWeatherAPIData / fetchAccuWeatherData.  A numeric field is none when the
corresponding property is undefined on the JS object. -/
structure SourceReading where
  temperature : Option ℚ
  humidity : Option ℚ
  pressure : Option ℚ
  windSpeed : Option ℚ
  windDirection : Option ℚ
  visibility : Option ℚ
  cloudiness : Option ℚ
  description : Option String
deriving Repr, DecidableEq

/-- A JS number as produced by the aggregation arithmetic: a finite value
(idealized as a rational), a signed infinity, or NaN. -/
inductive JSNum
  | val (q : ℚ)
  | posInf
  | negInf
  | nan
deriving Repr, DecidableEq

/-- Whether a JS number is finite. -/
def JSNum.isFinite : JSNum → Bool
  | .val _ => true
  | _ => false

/-- JS division of finite numbers under IEEE semantics: with a zero divisor,
0/0 is NaN and a/0 for nonzero a is the infinity carrying the sign of a;
otherwise the exact quotient. -/
def jsDiv (a b : ℚ) : JSNum :=
  if b = 0 then
    if a = 0 then .nan else if 0 < a then .posInf else .negInf
  else .val (a / b)

/-- Math.round (round half towards positive infinity), which on rationals is
round x = floor (x + 1/2), i.e. Lean's round. -/
def jsRound (x : ℚ) : ℚ :=
  ((round x : ℤ) : ℚ)

/-- Math.round(x * 10) / 10 on a JS number: multiplying by 10, Math.round and
dividing by 10 all fix NaN and the two infinities. -/
def round1 : JSNum → JSNum
  | .val v => .val (jsRound (v * 10) / 10)
  | x => x

/-- Math.round on a JS number: Math.round(NaN) = NaN and
Math.round(plus or minus Infinity) is that infinity. -/
def round0 : JSNum → JSNum
  | .val v => .val (jsRound v)
  | x => x

/-- Multiplication of a JS number by the positive literal 100, which fixes
NaN and the two infinities. -/
def jsTimes100 : JSNum → JSNum
  | .val q => .val (q * 100)
  | x => x

/-- Sum of the values of one field over the sources where it is present
(the per-field accumulators tempSum, humiditySum, ... of
createAggregatedWeather). -/
def optSum (f : SourceReading → Option ℚ) (sources : List SourceReading) : ℚ :=
  (sources.filterMap f).sum

/-- The validSources counter of createAggregatedWeather: the number of sources
whose temperature is present. -/
def validSources (sources : List SourceReading) : ℕ :=
  (sources.filterMap SourceReading.temperature).length

/-- The descriptions list: every truthy description string, in source order
(the empty string is falsy in JS and is skipped). -/
def descriptionsOf (sources : List SourceReading) : List String :=
  sources.filterMap fun s =>
    s.description.bind fun d => if d = "" then none else some d

/-- The aggregated object returned by createAggregatedWeather.  Numeric fields
are JS numbers: NaN or an infinity when the computation divides by zero. -/
structure Aggregated where
  temperature : JSNum
  humidity : JSNum
  pressure : JSNum
  windSpeed : JSNum
  windDirection : JSNum
  visibility : JSNum
  cloudiness : JSNum
  descriptions : List String
  confidence : JSNum
deriving Repr, DecidableEq

/-- createAggregatedWeather (identical in part_001, part_002 and
lambda/gcp/index.js).  The sources argument is the list of values of the
sources object, i.e. the successfully fetched readings in insertion order;
throwing is modelled as Except.error with the thrown message. -/
def createAggregatedWeather (sources : List SourceReading) :
    Except String Aggregated :=
  let sourceCount := sources.length
  if sourceCount = 0 then
    .error "No weather data available from any source"
  else
    let vs : ℚ := (validSources sources : ℚ)
    .ok
      { temperature := round1 (jsDiv (optSum SourceReading.temperature sources) vs)
        humidity := round0 (jsDiv (optSum SourceReading.humidity sources) vs)
        pressure := round0 (jsDiv (optSum SourceReading.pressure sources) vs)
        windSpeed := round1 (jsDiv (optSum SourceReading.windSpeed sources) vs)
        windDirection := round0 (jsDiv (optSum SourceReading.windDirection sources) vs)
        visibility := round0 (jsDiv (optSum SourceReading.visibility sources) vs)
        cloudiness := round0 (jsDiv (optSum SourceReading.cloudiness sources) vs)
        descriptions := descriptionsOf sources
        confidence := round0 (jsTimes100 (jsDiv vs (sourceCount : ℚ))) }

/-- storeWeatherData: the DynamoDB / Cosmos / Firestore put is attempted; on
failure the error is logged and rethrown (catch block ends in throw error).
The sink outcome is the behavior of the external persistence call. -/
def storeWeatherData (sink : Except String Unit) : Except String Unit :=
  match sink with
  | .ok _ => .ok ()
  | .error e => .error e

instance exceptDecEq {ε α : Type} [DecidableEq ε] [DecidableEq α] :
    DecidableEq (Except ε α)
  | .error a, .error b =>
      if h : a = b then .isTrue (by rw [h])
      else .isFalse (by intro hh; cases hh; exact h rfl)
  | .error _, .ok _ => .isFalse (by intro h; cases h)
  | .ok _, .error _ => .isFalse (by intro h; cases h)
  | .ok a, .ok b =>
      if h : a = b then .isTrue (by rw [h])
      else .isFalse (by intro hh; cases hh; exact h rfl)

/-- Outcome of one fetchWeatherForLocation call: what the promise settles to,
and whether the persistence write was ever invoked. -/
structure FetchOutcome where
  result : Except String Aggregated
  storeInvoked : Bool
deriving Repr, DecidableEq

/-- fetchWeatherForLocation, after the three source fetches have settled:
fetches lists the three attempted source results in order (none = rejected
promise); the sources object collects the fulfilled ones;
createAggregatedWeather runs on it, then storeWeatherData, and any throw
propagates out of the async function. -/
def fetchWeatherForLocation (fetches : List (Option SourceReading))
    (sink : Except String Unit) : FetchOutcome :=
  match createAggregatedWeather (fetches.filterMap id) with
  | .error e => { result := .error e, storeInvoked := false }
  | .ok agg =>
      match storeWeatherData sink with
      | .error e => { result := .error e, storeInvoked := true }
      | .ok _ => { result := .ok agg, storeInvoked := true }

/-! Cross-cloud layer (src/unnamed/part_003). -/

/-- The metrics list of calculateConsensus / calculateVariations. -/
inductive Metric
  | temperature
  | humidity
  | pressure
  | windSpeed
  | cloudiness
deriving Repr, DecidableEq

/-- One provider-level data point as consumed by the cross-cloud statistics
(an entry of allData or of a per-location providers array).  none models a
field that is undefined or null. -/
structure DataPoint where
  temperature : Option ℚ
  humidity : Option ℚ
  pressure : Option ℚ
  windSpeed : Option ℚ
  cloudiness : Option ℚ
deriving Repr, DecidableEq

def DataPoint.metric : DataPoint → Metric → Option ℚ
  | p, .temperature => p.temperature
  | p, .humidity => p.humidity
  | p, .pressure => p.pressure
  | p, .windSpeed => p.windSpeed
  | p, .cloudiness => p.cloudiness

/-- The values array for one metric: point[metric] filtered to the defined,
non-null entries. -/
def metricValues (m : Metric) (dataPoints : List DataPoint) : List ℚ :=
  dataPoints.filterMap fun p => p.metric m

/-- Math.max over a spread of a non-empty array. -/
def listMax : List ℚ → ℚ
  | [] => 0
  | x :: xs => xs.foldl max x

/-- Math.min over a spread of a non-empty array. -/
def listMin : List ℚ → ℚ
  | [] => 0
  | x :: xs => xs.foldl min x

/-- values.reduce((sum, val) => sum + val, 0) / values.length. -/
def listMean (values : List ℚ) : ℚ :=
  values.sum / values.length

/-- calculateConsensus: per metric, the mean of the present values rounded to
two decimals, set only when at least one value is present; an absent entry of
the consensus object is none. -/
def calculateConsensus (dataPoints : List DataPoint) : Metric → Option ℚ :=
  fun m =>
    if dataPoints.length = 0 then none
    else
      let values := metricValues m dataPoints
      if 0 < values.length then
        some (jsRound (listMean values * 100) / 100)
      else none

/-- The population variance of calculateVariations: sum of squared deviations
from the mean, divided by the number of values. -/
def popVariance (values : List ℚ) : ℚ :=
  (values.map fun v => (v - listMean values) ^ 2).sum / values.length

/-- calculateVariations: per metric, Math.round(Math.sqrt(variance) * 100) /
100, set only when more than one value is present (and only when more than one
data point exists at all); an absent entry is none. -/
noncomputable def calculateVariations (dataPoints : List DataPoint) :
    Metric → Option ℝ :=
  fun m =>
    if dataPoints.length ≤ 1 then none
    else
      let values := metricValues m dataPoints
      if 1 < values.length then
        some (((round (Real.sqrt ((popVariance values : ℚ) : ℝ) * 100) : ℤ) : ℝ) / 100)
      else none

/-- The reliability object of calculateReliability. -/
structure Reliability where
  dataAvailability : ℚ
  temperatureAgreement : Option ℚ
  overall : ℤ
deriving Repr, DecidableEq

/-- JS x || d for a numeric x that may be undefined: undefined and 0 are both
falsy, so both select the default. -/
def jsOr (x : Option ℚ) (d : ℚ) : ℚ :=
  match x with
  | none => d
  | some v => if v = 0 then d else v

/-- calculateReliability: dataAvailability = (dataPoints.length /
totalProviders) * 100; temperatureAgreement = Math.max(0, 100 - tempRange * 25)
set only when more than one data point and more than one temperature value
exist; overall = Math.round((dataAvailability + (temperatureAgreement || 100))
/ 2). -/
def calculateReliability (dataPoints : List DataPoint) (totalProviders : ℕ) :
    Reliability :=
  let dataAvailability : ℚ := ((dataPoints.length : ℚ) / (totalProviders : ℚ)) * 100
  let temperatureAgreement : Option ℚ :=
    if 1 < dataPoints.length then
      let tempValues := metricValues .temperature dataPoints
      if 1 < tempValues.length then
        some (max 0 (100 - (listMax tempValues - listMin tempValues) * 25))
      else none
    else none
  { dataAvailability := dataAvailability
    temperatureAgreement := temperatureAgreement
    overall := round ((dataAvailability + jsOr temperatureAgreement 100) / 2) }

/-- calculateAgreement: 100 when at most one data point or at most one
temperature value; otherwise Math.max(0, Math.round(100 - tempRange * 25)). -/
def calculateAgreement (dataPoints : List DataPoint) : ℤ :=
  if dataPoints.length ≤ 1 then 100
  else
    let tempValues := metricValues .temperature dataPoints
    if tempValues.length ≤ 1 then 100
    else
      max 0 (round ((100 : ℚ) - (listMax tempValues - listMin tempValues) * 25))

/-- One location item inside a provider response (an element of the data array
of a provider, or the single data object): carries the provider-level
aggregate when present. -/
structure LocationItem where
  locationId : String
  locationName : String
  latitude : ℚ
  longitude : ℚ
  timestamp : Option ℚ
  aggregated : Option DataPoint
deriving Repr, DecidableEq

/-- The data field of one cloud provider response: either an array of
location items or a single location object. -/
inductive ProviderData
  | multiple (items : List LocationItem)
  | single (item : LocationItem)
deriving Repr, DecidableEq

/-- One entry of the cloudData object: provider key, source tag, data payload
and the response timestamp (none models an unparsable date, whose Date would
be NaN). -/
structure CloudEntry where
  provider : String
  source : String
  data : ProviderData
  timestamp : Option ℚ
deriving Repr, DecidableEq

/-- calculateDataFreshness: average of (now - timestamp) over the parsable
provider timestamps, in milliseconds; minutes = Math.round(average /
(1000 * 60)); thresholds 5 / 15 / 60; unknown when no timestamp parses. -/
def calculateDataFreshness (cloudData : List CloudEntry) (now : ℚ) : String :=
  let timestamps := cloudData.filterMap CloudEntry.timestamp
  if timestamps.length = 0 then "unknown"
  else
    let averageAge := (timestamps.map fun t => now - t).sum / (timestamps.length : ℚ)
    let minutes := round (averageAge / (1000 * 60))
    if minutes < 5 then "very-fresh"
    else if minutes < 15 then "fresh"
    else if minutes < 60 then "moderate"
    else "stale"

/-- One entry of a per-location providers array: { provider, data, timestamp }. -/
structure ProviderRecord where
  provider : String
  data : DataPoint
  timestamp : Option ℚ
deriving Repr, DecidableEq

/-- One value of the locationData object: location identity plus the providers
collected for it, in insertion order. -/
structure LocationGroup where
  locationId : String
  locationName : String
  latitude : ℚ
  longitude : ℚ
  providers : List ProviderRecord
deriving Repr, DecidableEq

/-- locationData[item.locationId] update: append to an existing group with the
same key, otherwise create a new group at the end (JS object insertion
order). -/
def pushProvider (groups : List LocationGroup) (it : LocationItem)
    (entry : ProviderRecord) : List LocationGroup :=
  if groups.any fun g => g.locationId = it.locationId then
    groups.map fun g =>
      if g.locationId = it.locationId then
        { g with providers := g.providers ++ [entry] }
      else g
  else
    groups ++ [{ locationId := it.locationId, locationName := it.locationName,
                 latitude := it.latitude, longitude := it.longitude,
                 providers := [entry] }]

/-- The location items of one provider entry that carry an aggregated object,
paired with that aggregate.  In the single-location branch the key defaults to
unknown when locationId is falsy (data.locationId || given the string model,
empty = falsy). -/
def collectEntries (e : CloudEntry) : List (LocationItem × DataPoint) :=
  match e.data with
  | .multiple items =>
      items.filterMap fun it => it.aggregated.map fun p => (it, p)
  | .single it =>
      match it.aggregated with
      | some p =>
          [({ it with locationId := if it.locationId = "" then "unknown" else it.locationId }, p)]
      | none => []

/-- The allData array: every aggregated object contributed by any provider. -/
def allDataOf (cloudData : List CloudEntry) : List DataPoint :=
  (cloudData.map fun e => (collectEntries e).map Prod.snd).flatten

/-- The locationData object after the collection loop. -/
def groupsOf (cloudData : List CloudEntry) : List LocationGroup :=
  cloudData.foldl
    (fun groups e =>
      (collectEntries e).foldl
        (fun gs itp =>
          pushProvider gs itp.1
            { provider := e.provider, data := itp.2, timestamp := itp.1.timestamp })
        groups)
    []

/-- The consensus of one output location: computed across providers when more
than one contributed, otherwise the single provider values verbatim. -/
inductive LocationConsensus
  | computed (c : Metric → Option ℚ)
  | verbatim (p : DataPoint)

/-- One element of aggregation.locations. -/
structure LocationOut where
  group : LocationGroup
  consensus : LocationConsensus
  variations : Metric → Option ℝ
  agreement : ℤ

/-- The per-location branch of createCrossCloudAggregation. -/
noncomputable def locationOut (g : LocationGroup) : LocationOut :=
  if 1 < g.providers.length then
    { group := g
      consensus := .computed (calculateConsensus (g.providers.map ProviderRecord.data))
      variations := calculateVariations (g.providers.map ProviderRecord.data)
      agreement := calculateAgreement (g.providers.map ProviderRecord.data) }
  else
    { group := g
      consensus := .verbatim ((g.providers.map ProviderRecord.data).headD
        { temperature := none, humidity := none, pressure := none,
          windSpeed := none, cloudiness := none })
      variations := fun _ => none
      agreement := 100 }

/-- aggregation.summary. -/
structure CrossSummary where
  totalLocations : ℕ
  averageTemperature : Option ℚ
  temperatureRange : Option ℝ
  overallReliability : Option ℤ
  dataFreshness : String

/-- The cross-cloud aggregation record. -/
structure CrossCloudAggregation where
  timestamp : String
  cloudProviders : List String
  dataPoints : ℕ
  consensus : Metric → Option ℚ
  variations : Metric → Option ℝ
  reliability : Option Reliability
  locations : List LocationOut
  summary : CrossSummary

/-- createCrossCloudAggregation: throws when no provider contributed;
otherwise computes consensus, variations and reliability over allData (left
empty when allData is empty), the per-location breakdown, and the summary.
The clock value now parameterizes the freshness computation. -/
noncomputable def createCrossCloudAggregation (cloudData : List CloudEntry)
    (timestamp : String) (now : ℚ) : Except String CrossCloudAggregation :=
  if cloudData.length = 0 then
    .error "No cloud provider data available"
  else
    let allData := allDataOf cloudData
    let consensus : Metric → Option ℚ :=
      if 0 < allData.length then calculateConsensus allData else fun _ => none
    let variations : Metric → Option ℝ :=
      if 0 < allData.length then calculateVariations allData else fun _ => none
    let reliability : Option Reliability :=
      if 0 < allData.length then some (calculateReliability allData cloudData.length)
      else none
    let groups := groupsOf cloudData
    .ok
      { timestamp := timestamp
        cloudProviders := cloudData.map CloudEntry.provider
        dataPoints := cloudData.length
        consensus := consensus
        variations := variations
        reliability := reliability
        locations := groups.map locationOut
        summary :=
          { totalLocations := groups.length
            averageTemperature := consensus .temperature
            temperatureRange := variations .temperature
            overallReliability := reliability.map Reliability.overall
            dataFreshness := calculateDataFreshness cloudData now } }

/-- What one provider fetch (fetchAWSWeatherData / fetchAzureWeatherData /
fetchGCPWeatherData) resolves to. -/
structure ProviderFetch where
  source : String
  data : ProviderData
  timestamp : Option ℚ
deriving Repr, DecidableEq

/-- The aggregation handler response: 200 with the aggregate on success, 500
with success false and the thrown message on failure. -/
inductive HandlerResponse
  | ok (statusCode : ℕ) (cloudProviders : List String) (failedProviders : List String)
      (aggregatedData : CrossCloudAggregation)
  | err (statusCode : ℕ) (message : String)

/-- The cross-cloud Lambda handler after the provider fetches settled:
fulfilled results populate cloudData, rejected ones the errors object;
createCrossCloudAggregation runs and a throw is caught into a 500 response. -/
noncomputable def crossCloudHandler
    (results : List (String × Except String ProviderFetch))
    (timestamp : String) (now : ℚ) : HandlerResponse :=
  let cloudData : List CloudEntry :=
    results.filterMap fun pr =>
      match pr.2 with
      | .ok f => some { provider := pr.1, source := f.source, data := f.data,
                        timestamp := f.timestamp }
      | .error _ => none
  let failed : List String :=
    results.filterMap fun pr =>
      match pr.2 with
      | .ok _ => none
      | .error _ => some pr.1
  match createCrossCloudAggregation cloudData timestamp now with
  | .error e => .err 500 e
  | .ok agg => .ok 200 (cloudData.map CloudEntry.provider) failed agg

/-! The UI-facing Next.js route (src/src/app/api/aggregation/weather/route.ts). -/

/-- location.toLowerCase().replace(non a-z0-9 with a dash), used for the mock
locationId: each character is lowercased, then replaced by a dash unless it is
a lowercase letter or digit. -/
def mockLocationId (location : String) : String :=
  String.mk (location.toList.map fun c =>
    if c.toLower.isLower ∨ c.toLower.isDigit then c.toLower else Char.ofNat 45)

/-- The canned location object of the mock fallback body. -/
structure MockLocation where
  locationId : String
  locationName : String
  agreement : ℤ
  temperature : ℚ
  humidity : ℚ
  description : String
  windSpeed : ℚ
  pressure : ℚ
  precipitation : ℚ
  sunrise : String
  sunset : String

/-- The JSON body of the route response. -/
inductive RouteBody
  | missingLocation (error : String)
  | notConfigured (error : String)
  | success (aggregatedData : Option CrossCloudAggregation) (cloudProviders : List String)
  | mock (location : MockLocation) (error : String)

/-- The GET handler of the aggregation route: 400 without a location, 503 when
unconfigured, the upstream payload on success, and on any error the mock body
with the placeholder reading at status 503. -/
def routeGET (location : Option String) (configured : Bool)
    (upstream : Except String (Option CrossCloudAggregation × List String)) :
    ℕ × RouteBody :=
  match location with
  | none => (400, .missingLocation "Location parameter is required")
  | some loc =>
      if configured then
        match upstream with
        | .ok payload => (200, .success payload.1 payload.2)
        | .error _ =>
            (503,
              .mock
                { locationId := mockLocationId loc
                  locationName := loc
                  agreement := 0
                  temperature := 20
                  humidity := 65
                  description := "Service Unavailable"
                  windSpeed := 0
                  pressure := 1013
                  precipitation := 0
                  sunrise := "6:18 AM"
                  sunset := "7:27 PM" }
                "All cloud providers are currently unavailable")
      else (503, .notConfigured "Aggregation service not configured")

/-! Concrete inputs used by witnesses and counterexamples. -/

/-- A source reading carrying only a temperature and a humidity value. -/
def srcTH (t h : Option ℚ) : SourceReading :=
  { temperature := t, humidity := h, pressure := none, windSpeed := none,
    windDirection := none, visibility := none, cloudiness := none,
    description := none }

/-- A provider data point carrying only a temperature value. -/
def tPoint (t : ℚ) : DataPoint :=
  { temperature := some t, humidity := none, pressure := none,
    windSpeed := none, cloudiness := none }

/-- A cloud provider entry observed at epoch time zero. -/
def freshEntry : CloudEntry :=
  { provider := "aws", source := "aws-lambda", data := .multiple [],
    timestamp := some 0 }

/-! Helper lemmas. -/

/-- When every source carries a temperature, the validSources counter equals
the source count. -/
theorem validSources_of_all_temp (sources : List SourceReading)
    (h : ∀ s ∈ sources, s.temperature ≠ none) :
    validSources sources = sources.length := by
  unfold validSources
  induction sources with
  | nil => rfl
  | cons a l ih =>
      have ha := h a (List.mem_cons_self a l)
      cases hta : a.temperature with
      | none => exact absurd hta ha
      | some t =>
          simp only [List.filterMap_cons, hta, List.length_cons]
          rw [ih fun s hs => h s (List.mem_cons_of_mem a hs)]

/-- When no source carries a temperature, the validSources counter is zero. -/
theorem validSources_of_no_temp (sources : List SourceReading)
    (h : ∀ s ∈ sources, s.temperature = none) :
    validSources sources = 0 := by
  unfold validSources
  rw [List.filterMap_eq_nil_iff.mpr h]
  rfl

/-- Math.round(x) < n exactly when x < n - 1/2 (round half up). -/
theorem round_lt_int (x : ℚ) (n : ℤ) : round x < n ↔ x < (n : ℚ) - 1/2 := by
  rw [round_eq, Int.floor_lt]
  constructor <;> intro h <;> push_cast at * <;> linarith

/-- The value createAggregatedWeather returns on a non-empty source list. -/
theorem createAggregatedWeather_ok (sources : List SourceReading)
    (h : sources.length ≠ 0) :
    createAggregatedWeather sources = .ok
      { temperature := round1 (jsDiv (optSum SourceReading.temperature sources) (validSources sources : ℚ))
        humidity := round0 (jsDiv (optSum SourceReading.humidity sources) (validSources sources : ℚ))
        pressure := round0 (jsDiv (optSum SourceReading.pressure sources) (validSources sources : ℚ))
        windSpeed := round1 (jsDiv (optSum SourceReading.windSpeed sources) (validSources sources : ℚ))
        windDirection := round0 (jsDiv (optSum SourceReading.windDirection sources) (validSources sources : ℚ))
        visibility := round0 (jsDiv (optSum SourceReading.visibility sources) (validSources sources : ℚ))
        cloudiness := round0 (jsDiv (optSum SourceReading.cloudiness sources) (validSources sources : ℚ))
        descriptions := descriptionsOf sources
        confidence := round0 (jsTimes100 (jsDiv (validSources sources : ℚ) (sources.length : ℚ))) } := by
  unfold createAggregatedWeather
  rw [if_neg h]

/-- When aggregation succeeds and the sink accepts, fetchWeatherForLocation
returns the aggregate after storing it. -/
theorem fetchWeatherForLocation_ok (fetches : List (Option SourceReading))
    {agg : Aggregated}
    (h : createAggregatedWeather (fetches.filterMap id) = .ok agg) :
    fetchWeatherForLocation fetches (.ok ())
      = { result := .ok agg, storeInvoked := true } := by
  unfold fetchWeatherForLocation
  rw [h]
  rfl

/-- Math.round applied to a division by zero is never finite, and is NaN
exactly when the numerator is zero (a nonzero numerator gives an infinity). -/
theorem round0_jsDiv_zero (a : ℚ) :
    (round0 (jsDiv a 0)).isFinite = false
    ∧ (round0 (jsDiv a 0) = JSNum.nan ↔ a = 0) := by
  by_cases h0 : a = 0
  · simp [jsDiv, round0, JSNum.isFinite, h0]
  · by_cases hpos : 0 < a
    · simp [jsDiv, round0, JSNum.isFinite, h0, hpos]
    · simp [jsDiv, round0, JSNum.isFinite, h0, hpos]

/-- The one-decimal rounding applied to a division by zero is never finite,
and is NaN exactly when the numerator is zero. -/
theorem round1_jsDiv_zero (a : ℚ) :
    (round1 (jsDiv a 0)).isFinite = false
    ∧ (round1 (jsDiv a 0) = JSNum.nan ↔ a = 0) := by
  by_cases h0 : a = 0
  · simp [jsDiv, round1, JSNum.isFinite, h0]
  · by_cases hpos : 0 < a
    · simp [jsDiv, round1, JSNum.isFinite, h0, hpos]
    · simp [jsDiv, round1, JSNum.isFinite, h0, hpos]

/-! Claim theorems. -/

/-- C9: when zero sources produced any reading, createAggregatedWeather throws
the no-data error, fetchWeatherForLocation rejects with it, and the
persistence write is never invoked, so no aggregate is stored or returned. -/
theorem C9_no_data_error :
    createAggregatedWeather ([] : List SourceReading)
        = .error "No weather data available from any source"
    ∧ ∀ (fetches : List (Option SourceReading)) (sink : Except String Unit),
        (∀ f ∈ fetches, f = none) →
        fetchWeatherForLocation fetches sink
          = { result := .error "No weather data available from any source",
              storeInvoked := false } := by
  constructor
  · rfl
  · intro fetches sink h
    have hnil : fetches.filterMap id = [] := List.filterMap_eq_nil_iff.mpr h
    unfold fetchWeatherForLocation
    rw [hnil]
    rfl

/-- C9 witness: all three source fetches rejected. -/
theorem C9_no_data_error_witness :
    fetchWeatherForLocation [none, none, none] (.ok ())
      = { result := .error "No weather data available from any source",
          storeInvoked := false } :=
  C9_no_data_error.2 [none, none, none] (.ok ()) (by decide)

/-- C10 counterexample: with one successful source that carries humidity 80
but no temperature, the aggregation does not fail, the humidity becomes
Math.round(80/0) = Infinity (not NaN), the metrics with zero sums become NaN
(0/0), and the confidence is the number 0 (zero valid count divided by the
successful-source count 1), also not NaN as the claim states. -/
theorem C10_counterexample :
    createAggregatedWeather [srcTH none (some 80)]
      = .ok { temperature := JSNum.nan, humidity := JSNum.posInf,
              pressure := JSNum.nan, windSpeed := JSNum.nan,
              windDirection := JSNum.nan, visibility := JSNum.nan,
              cloudiness := JSNum.nan, descriptions := [],
              confidence := JSNum.val 0 }
    ∧ JSNum.posInf ≠ JSNum.nan
    ∧ JSNum.val 0 ≠ JSNum.nan := by
  have hfmh : [srcTH none (some 80)].filterMap SourceReading.humidity
      = [(80 : ℚ)] := rfl
  have hsh : optSum SourceReading.humidity [srcTH none (some 80)] = 80 := by
    unfold optSum
    rw [hfmh]
    norm_num
  have hvs : validSources [srcTH none (some 80)] = 0 := rfl
  have hst : optSum SourceReading.temperature [srcTH none (some 80)] = 0 := rfl
  have hsp : optSum SourceReading.pressure [srcTH none (some 80)] = 0 := rfl
  have hsw : optSum SourceReading.windSpeed [srcTH none (some 80)] = 0 := rfl
  have hsd : optSum SourceReading.windDirection [srcTH none (some 80)] = 0 := rfl
  have hsv : optSum SourceReading.visibility [srcTH none (some 80)] = 0 := rfl
  have hsc : optSum SourceReading.cloudiness [srcTH none (some 80)] = 0 := rfl
  have hde : descriptionsOf [srcTH none (some 80)] = [] := rfl
  refine ⟨?_, by decide, by decide⟩
  rw [createAggregatedWeather_ok _ (by simp)]
  simp only [hvs, hsh, hst, hsp, hsw, hsd, hsv, hsc, hde, Nat.cast_zero]
  norm_num [jsDiv, jsTimes100, round0, round1, jsRound, round_eq]

/-- C10 amended: for a non-empty set of successful sources none of which
supplies a temperature, createAggregatedWeather succeeds (its guard tests only
emptiness); every averaged numeric field divides by the zero valid-source
count and is therefore non-finite: NaN exactly when that metric's sum of
present values is zero (temperature always, its sum being empty) and a signed
infinity otherwise (e.g. a positive humidity sum gives +Infinity); the
confidence evaluates to the number 0, not NaN. -/
theorem C10_no_temp_no_error :
    ∀ sources : List SourceReading, sources ≠ [] →
      (∀ s ∈ sources, s.temperature = none) →
      ∃ agg, createAggregatedWeather sources = .ok agg
        ∧ agg.temperature = JSNum.nan
        ∧ agg.humidity.isFinite = false
        ∧ (agg.humidity = JSNum.nan ↔ optSum SourceReading.humidity sources = 0)
        ∧ agg.pressure.isFinite = false
        ∧ (agg.pressure = JSNum.nan ↔ optSum SourceReading.pressure sources = 0)
        ∧ agg.windSpeed.isFinite = false
        ∧ (agg.windSpeed = JSNum.nan ↔ optSum SourceReading.windSpeed sources = 0)
        ∧ agg.windDirection.isFinite = false
        ∧ agg.visibility.isFinite = false
        ∧ agg.cloudiness.isFinite = false
        ∧ agg.confidence = JSNum.val 0 := by
  intro sources hne hno
  have hvs : validSources sources = 0 := validSources_of_no_temp sources hno
  have hlen : sources.length ≠ 0 := by
    simpa [List.length_eq_zero] using hne
  have htnil : sources.filterMap SourceReading.temperature = [] :=
    List.filterMap_eq_nil_iff.mpr hno
  have htsum : optSum SourceReading.temperature sources = 0 := by
    unfold optSum
    rw [htnil]
    rfl
  simp only [createAggregatedWeather, if_neg hlen]
  refine ⟨_, rfl, ?_, ?_, ?_, ?_, ?_, ?_, ?_, ?_, ?_, ?_, ?_⟩
  · simp [hvs, htsum, jsDiv, round1]
  · simpa [hvs] using (round0_jsDiv_zero (optSum SourceReading.humidity sources)).1
  · simpa [hvs] using (round0_jsDiv_zero (optSum SourceReading.humidity sources)).2
  · simpa [hvs] using (round0_jsDiv_zero (optSum SourceReading.pressure sources)).1
  · simpa [hvs] using (round0_jsDiv_zero (optSum SourceReading.pressure sources)).2
  · simpa [hvs] using (round1_jsDiv_zero (optSum SourceReading.windSpeed sources)).1
  · simpa [hvs] using (round1_jsDiv_zero (optSum SourceReading.windSpeed sources)).2
  · simpa [hvs] using (round0_jsDiv_zero (optSum SourceReading.windDirection sources)).1
  · simpa [hvs] using (round0_jsDiv_zero (optSum SourceReading.visibility sources)).1
  · simpa [hvs] using (round0_jsDiv_zero (optSum SourceReading.cloudiness sources)).1
  · simp [hvs, hlen, jsDiv, jsTimes100, round0, jsRound, Nat.cast_eq_zero]

/-- C1 counterexample: three attempted sources of which exactly one succeeds
(with a temperature) yield confidence 100, because the denominator counts only
the successful sources; the claim predicts round(100 x 1/3) = 33. -/
theorem C1_counterexample :
    (fetchWeatherForLocation [some (srcTH (some 22) none), none, none]
        (Except.ok ())).result.map Aggregated.confidence = .ok (JSNum.val 100)
    ∧ ((round ((1 : ℚ) / 3 * 100) : ℤ) : ℚ) = 33
    ∧ (100 : ℚ) ≠ 33 := by
  refine ⟨?_, by norm_num [round_eq], by norm_num⟩
  have h1 : [some (srcTH (some 22) none), none, none].filterMap id
      = [srcTH (some 22) none] := rfl
  have hok := createAggregatedWeather_ok [srcTH (some 22) none] (by simp)
  have hfetch := fetchWeatherForLocation_ok
    [some (srcTH (some 22) none), none, none] (by rw [h1]; exact hok)
  rw [hfetch]
  have hvs : validSources [srcTH (some 22) none] = 1 := rfl
  simp only [Except.map, hvs]
  norm_num [round0, jsDiv, jsTimes100, jsRound, round_eq]

/-- C1 amended: confidence = round(100 x (sources supplying a temperature) /
(successful sources)); failed fetches are absent from the sources object, so
appending a failed attempt never changes the outcome, and whenever every
successful source supplies a temperature the confidence is 100 regardless of
how many attempts failed. -/
theorem C1_confidence_formula :
    (∀ sources : List SourceReading, sources ≠ [] →
      (createAggregatedWeather sources).map Aggregated.confidence
        = .ok (JSNum.val (jsRound ((validSources sources : ℚ) / (sources.length : ℚ) * 100))))
    ∧ (∀ (fetches : List (Option SourceReading)) (sink : Except String Unit),
        fetchWeatherForLocation (fetches ++ [none]) sink
          = fetchWeatherForLocation fetches sink)
    ∧ (∀ sources : List SourceReading, sources ≠ [] →
        (∀ s ∈ sources, s.temperature ≠ none) →
        (createAggregatedWeather sources).map Aggregated.confidence
          = .ok (JSNum.val 100)) := by
  have key : ∀ sources : List SourceReading, sources ≠ [] →
      (createAggregatedWeather sources).map Aggregated.confidence
        = .ok (JSNum.val (jsRound ((validSources sources : ℚ) / (sources.length : ℚ) * 100))) := by
    intro sources hne
    have hlen : sources.length ≠ 0 := by
      simpa [List.length_eq_zero] using hne
    simp [createAggregatedWeather, if_neg hlen, Except.map, round0, jsDiv,
      jsTimes100, Nat.cast_eq_zero, hlen]
  refine ⟨key, ?_, ?_⟩
  · intro fetches sink
    unfold fetchWeatherForLocation
    rw [List.filterMap_append]
    simp
  · intro sources hne hall
    rw [key sources hne, validSources_of_all_temp sources hall]
    have hlen : (sources.length : ℚ) ≠ 0 := by
      simpa [List.length_eq_zero, Nat.cast_eq_zero] using hne
    rw [div_self hlen]
    norm_num [jsRound, round_eq]

/-- C1 witness: a single successful source supplying temperature 22 gives
confidence 100. -/
theorem C1_confidence_formula_witness :
    (createAggregatedWeather [srcTH (some 22) none]).map Aggregated.confidence
      = .ok (JSNum.val 100) :=
  C1_confidence_formula.2.2 [srcTH (some 22) none] (by simp)
    (by intro s hs; simp at hs; subst hs; simp [srcTH])

/-- C2 counterexample: two successful sources both supplying a temperature,
only the first supplying humidity 80: the aggregated humidity is
round(80 / 2) = 40, not the mean 80 of the present humidity values. -/
theorem C2_counterexample :
    (createAggregatedWeather [srcTH (some 20) (some 80), srcTH (some 22) none]).map
        Aggregated.humidity = .ok (JSNum.val 40)
    ∧ listMean ([srcTH (some 20) (some 80), srcTH (some 22) none].filterMap
        SourceReading.humidity) = 80
    ∧ (40 : ℚ) ≠ 80 := by
  have hfm : [srcTH (some 20) (some 80), srcTH (some 22) none].filterMap
      SourceReading.humidity = [(80 : ℚ)] := rfl
  refine ⟨?_, by rw [hfm]; norm_num [listMean], by norm_num⟩
  rw [createAggregatedWeather_ok _ (by simp)]
  have hvs : validSources [srcTH (some 20) (some 80), srcTH (some 22) none] = 2 := rfl
  have hsum : optSum SourceReading.humidity
      [srcTH (some 20) (some 80), srcTH (some 22) none] = 80 := by
    simp [optSum, hfm]
  simp only [Except.map, hvs, hsum]
  norm_num [round0, jsDiv, jsRound, round_eq]

/-- C2 amended: temperature consensus is the mean of the present temperature
values rounded at one decimal (x10, round, /10); every other metric is the sum
of its present values divided by the temperature-valid count (not by its own
present count), windSpeed rounded at one decimal and the rest to the nearest
integer; temperatures [22, 24, 23.5] yield 23.2. -/
theorem C2_metric_means :
    (∀ sources : List SourceReading, 0 < validSources sources →
      (createAggregatedWeather sources).map Aggregated.temperature
        = .ok (JSNum.val (jsRound (listMean (sources.filterMap SourceReading.temperature) * 10) / 10))
      ∧ (createAggregatedWeather sources).map Aggregated.windSpeed
        = .ok (JSNum.val (jsRound (optSum SourceReading.windSpeed sources / (validSources sources : ℚ) * 10) / 10))
      ∧ (createAggregatedWeather sources).map Aggregated.humidity
        = .ok (JSNum.val (jsRound (optSum SourceReading.humidity sources / (validSources sources : ℚ))))
      ∧ (createAggregatedWeather sources).map Aggregated.pressure
        = .ok (JSNum.val (jsRound (optSum SourceReading.pressure sources / (validSources sources : ℚ))))
      ∧ (createAggregatedWeather sources).map Aggregated.windDirection
        = .ok (JSNum.val (jsRound (optSum SourceReading.windDirection sources / (validSources sources : ℚ))))
      ∧ (createAggregatedWeather sources).map Aggregated.visibility
        = .ok (JSNum.val (jsRound (optSum SourceReading.visibility sources / (validSources sources : ℚ))))
      ∧ (createAggregatedWeather sources).map Aggregated.cloudiness
        = .ok (JSNum.val (jsRound (optSum SourceReading.cloudiness sources / (validSources sources : ℚ)))))
    ∧ (createAggregatedWeather [srcTH (some 22) none, srcTH (some 24) none,
        srcTH (some (47/2)) none]).map Aggregated.temperature
        = .ok (JSNum.val (116/5)) := by
  constructor
  · intro sources hvs
    have hvq : (validSources sources : ℚ) ≠ 0 := by
      simpa [Nat.cast_eq_zero] using Nat.pos_iff_ne_zero.mp hvs
    have hlen : sources.length ≠ 0 := by
      have hle := List.length_filterMap_le SourceReading.temperature sources
      unfold validSources at hvs
      omega
    rw [createAggregatedWeather_ok sources hlen]
    refine ⟨?_, ?_, ?_, ?_, ?_, ?_, ?_⟩ <;>
      simp only [Except.map, round0, round1, jsDiv, if_neg hvq,
        Except.ok.injEq, JSNum.val.injEq] <;>
      simp [listMean, optSum, validSources]
  · rw [createAggregatedWeather_ok _ (by simp)]
    have hvs : validSources [srcTH (some 22) none, srcTH (some 24) none,
        srcTH (some (47/2)) none] = 3 := rfl
    have hfm : [srcTH (some 22) none, srcTH (some 24) none,
        srcTH (some (47/2)) none].filterMap SourceReading.temperature
        = [(22 : ℚ), 24, 47/2] := rfl
    have hsum : optSum SourceReading.temperature [srcTH (some 22) none,
        srcTH (some 24) none, srcTH (some (47/2)) none] = 139/2 := by
      unfold optSum; rw [hfm]; norm_num
    simp only [Except.map, hvs, hsum]
    norm_num [round1, jsDiv, jsRound, round_eq]

/-- C2 witness: the three-reading example. -/
theorem C2_metric_means_witness :
    (createAggregatedWeather [srcTH (some 22) none, srcTH (some 24) none,
        srcTH (some (47/2)) none]).map Aggregated.temperature
      = .ok (JSNum.val (jsRound (listMean ([srcTH (some 22) none, srcTH (some 24) none,
          srcTH (some (47/2)) none].filterMap SourceReading.temperature) * 10) / 10)) :=
  (C2_metric_means.1 [srcTH (some 22) none, srcTH (some 24) none,
      srcTH (some (47/2)) none] (by decide)).1

/-- C6 counterexample: the aggregation succeeds, yet a failed persistence
write makes fetchWeatherForLocation reject with the storage error instead of
returning the aggregate. -/
theorem C6_counterexample :
    fetchWeatherForLocation [some (srcTH (some 22) none), none, none]
        (.error "DynamoDB storage failed")
      = { result := .error "DynamoDB storage failed", storeInvoked := true }
    ∧ (createAggregatedWeather [srcTH (some 22) none]).map Aggregated.temperature
      = .ok (JSNum.val 22) := by
  constructor
  · have hok := createAggregatedWeather_ok [srcTH (some 22) none] (by simp)
    unfold fetchWeatherForLocation
    rw [show [some (srcTH (some 22) none), none, none].filterMap id
        = [srcTH (some 22) none] from rfl, hok]
    rfl
  · rw [createAggregatedWeather_ok _ (by simp)]
    have hvs : validSources [srcTH (some 22) none] = 1 := rfl
    have hfm2 : [srcTH (some 22) none].filterMap SourceReading.temperature
        = [(22 : ℚ)] := rfl
    have hsum : optSum SourceReading.temperature [srcTH (some 22) none] = 22 := by
      unfold optSum; rw [hfm2]; norm_num
    simp only [Except.map, hvs, hsum]
    norm_num [round1, jsDiv, jsRound, round_eq]

/-- C6 amended: whenever provider-level aggregation succeeds and the
persistence sink fails, the sink error is rethrown: the per-location fetch
rejects with it and the aggregate is not returned. -/
theorem C6_sink_failure_propagates :
    ∀ (fetches : List (Option SourceReading)) (e : String) (agg : Aggregated),
      createAggregatedWeather (fetches.filterMap id) = .ok agg →
      fetchWeatherForLocation fetches (.error e)
        = { result := .error e, storeInvoked := true } := by
  intro fetches e agg h
  unfold fetchWeatherForLocation
  rw [h]
  rfl

/-- C6 witness: one successful source, sink failing. -/
theorem C6_sink_failure_propagates_witness :
    fetchWeatherForLocation [some (srcTH (some 22) none)] (.error "boom")
      = { result := .error "boom", storeInvoked := true } :=
  C6_sink_failure_propagates [some (srcTH (some 22) none)] "boom" _
    (createAggregatedWeather_ok [srcTH (some 22) none] (by simp))

/-- C4: the agreement score is max(0, round(100 - 25 x (max - min))) over the
present provider temperature values whenever at least two are present, and 100
otherwise; [20, 20, 20] gives 100, [18, 20, 22] gives 0, [19, 20, 21] gives
50. -/
theorem C4_agreement :
    (∀ dataPoints : List DataPoint,
      calculateAgreement dataPoints =
        if 2 ≤ (metricValues .temperature dataPoints).length then
          max 0 (round ((100 : ℚ) - 25 *
            (listMax (metricValues .temperature dataPoints) -
             listMin (metricValues .temperature dataPoints))))
        else 100)
    ∧ calculateAgreement [tPoint 20, tPoint 20, tPoint 20] = 100
    ∧ calculateAgreement [tPoint 18, tPoint 20, tPoint 22] = 0
    ∧ calculateAgreement [tPoint 19, tPoint 20, tPoint 21] = 50 := by
  have key : ∀ dataPoints : List DataPoint,
      calculateAgreement dataPoints =
        if 2 ≤ (metricValues .temperature dataPoints).length then
          max 0 (round ((100 : ℚ) - 25 *
            (listMax (metricValues .temperature dataPoints) -
             listMin (metricValues .temperature dataPoints))))
        else 100 := by
    intro points
    have harg : (100 : ℚ) -
        (listMax (metricValues .temperature points) -
         listMin (metricValues .temperature points)) * 25
        = 100 - 25 * (listMax (metricValues .temperature points) -
           listMin (metricValues .temperature points)) := by ring
    by_cases h1 : points.length ≤ 1
    · have h2 : (metricValues .temperature points).length ≤ 1 :=
        le_trans (List.length_filterMap_le _ _) h1
      simp only [calculateAgreement, if_pos h1, if_neg (by omega :
        ¬ 2 ≤ (metricValues .temperature points).length)]
    · by_cases h2 : (metricValues .temperature points).length ≤ 1
      · simp only [calculateAgreement, if_neg h1, if_pos h2, if_neg (by omega :
          ¬ 2 ≤ (metricValues .temperature points).length)]
      · simp only [calculateAgreement, if_neg h1, if_neg h2, if_pos (by omega :
          2 ≤ (metricValues .temperature points).length), harg]
  refine ⟨key, ?_, ?_, ?_⟩
  · rw [key, show metricValues .temperature [tPoint 20, tPoint 20, tPoint 20]
        = [20, 20, 20] from rfl]
    norm_num [listMax, listMin, max_def, min_def, round_eq]
  · rw [key, show metricValues .temperature [tPoint 18, tPoint 20, tPoint 22]
        = [18, 20, 22] from rfl]
    norm_num [listMax, listMin, max_def, min_def, round_eq]
  · rw [key, show metricValues .temperature [tPoint 19, tPoint 20, tPoint 21]
        = [19, 20, 21] from rfl]
    norm_num [listMax, listMin, max_def, min_def, round_eq]

/-- C5 counterexample: two providers with temperatures 18 and 22 give
temperatureAgreement 0, which is falsy in JS, so overall averages in 100 where
the claim demands the computed value 0: overall is 100, not
round((100 + 0) / 2) = 50. -/
theorem C5_counterexample :
    (calculateReliability [tPoint 18, tPoint 22] 2).temperatureAgreement = some 0
    ∧ (calculateReliability [tPoint 18, tPoint 22] 2).dataAvailability = 100
    ∧ (calculateReliability [tPoint 18, tPoint 22] 2).overall = 100
    ∧ round (((100 : ℚ) + 0) / 2) = 50
    ∧ (100 : ℤ) ≠ 50 := by
  have hfm : metricValues .temperature [tPoint 18, tPoint 22] = [18, 22] := rfl
  refine ⟨?_, ?_, ?_, by norm_num [round_eq], by norm_num⟩ <;>
    · simp only [calculateReliability, hfm]
      norm_num [listMax, listMin, max_def, min_def, jsOr, round_eq]

/-- C5 amended: temperatureAgreement is computed exactly when at least two
temperature values are present, and overall = round(mean(dataAvailability,
temperatureAgreement)) except that the computed value is replaced by 100 not
only when it is missing but also when it equals 0 (the JS || treats 0 as
falsy). -/
theorem C5_reliability_overall :
    ∀ (dataPoints : List DataPoint) (totalProviders : ℕ),
      ((calculateReliability dataPoints totalProviders).temperatureAgreement = none
        ↔ (metricValues .temperature dataPoints).length ≤ 1)
      ∧ (∀ v : ℚ,
          (calculateReliability dataPoints totalProviders).temperatureAgreement = some v →
          v ≠ 0 →
          (calculateReliability dataPoints totalProviders).overall =
            round (((calculateReliability dataPoints totalProviders).dataAvailability + v) / 2))
      ∧ (((calculateReliability dataPoints totalProviders).temperatureAgreement = none ∨
          (calculateReliability dataPoints totalProviders).temperatureAgreement = some 0) →
          (calculateReliability dataPoints totalProviders).overall =
            round (((calculateReliability dataPoints totalProviders).dataAvailability + 100) / 2)) := by
  intro points total
  have hoverall : (calculateReliability points total).overall =
      round (((calculateReliability points total).dataAvailability +
        jsOr (calculateReliability points total).temperatureAgreement 100) / 2) := rfl
  refine ⟨?_, ?_, ?_⟩
  · simp only [calculateReliability]
    by_cases h1 : 1 < points.length
    · by_cases h2 : 1 < (metricValues .temperature points).length
      · simp only [if_pos h1, if_pos h2]
        constructor
        · intro h; cases h
        · omega
      · simp only [if_pos h1, if_neg h2]
        constructor
        · intro _; omega
        · intro _; trivial
    · have h2 : (metricValues .temperature points).length ≤ 1 :=
        le_trans (List.length_filterMap_le _ _) (by omega)
      simp only [if_neg h1]
      constructor
      · intro _; omega
      · intro _; trivial
  · intro v hv hv0
    rw [hoverall, hv]
    simp [jsOr, hv0]
  · intro hcase
    rcases hcase with h | h <;> rw [hoverall, h] <;> simp [jsOr]

/-- C5 witness: providers at 19 and 20 degrees agree at 75, which is averaged
as computed. -/
theorem C5_reliability_overall_witness :
    (calculateReliability [tPoint 19, tPoint 20] 2).overall =
      round (((calculateReliability [tPoint 19, tPoint 20] 2).dataAvailability + 75) / 2) :=
  (C5_reliability_overall [tPoint 19, tPoint 20] 2).2.1 75
    (by simp only [calculateReliability,
          show metricValues .temperature [tPoint 19, tPoint 20] = [19, 20] from rfl]
        norm_num [listMax, listMin, max_def, min_def])
    (by norm_num)

/-- C7 counterexample: temperatures 0, 1, 2 have population variance 2/3, and
the emitted variation is the two-decimal rounding 0.82, which differs from the
exact population standard deviation sqrt(2/3). -/
theorem C7_counterexample :
    calculateVariations [tPoint 0, tPoint 1, tPoint 2] .temperature
        = some ((82 : ℝ) / 100)
    ∧ popVariance (metricValues .temperature [tPoint 0, tPoint 1, tPoint 2]) = 2/3
    ∧ ((82 : ℝ) / 100) ≠ Real.sqrt (((2 : ℚ)/3 : ℚ) : ℝ) := by
  have hfm : metricValues .temperature [tPoint 0, tPoint 1, tPoint 2]
      = [0, 1, 2] := rfl
  have hvar : popVariance ([0, 1, 2] : List ℚ) = 2/3 := by
    norm_num [popVariance, listMean]
  have hsqrt : round (Real.sqrt (((2 : ℚ)/3 : ℚ) : ℝ) * 100) = 82 := by
    rw [round_eq, Int.floor_eq_iff]
    have hlow : (0.815 : ℝ) ≤ Real.sqrt (((2 : ℚ)/3 : ℚ) : ℝ) := by
      rw [Real.le_sqrt' (by norm_num)]
      push_cast
      norm_num
    have hhigh : Real.sqrt (((2 : ℚ)/3 : ℚ) : ℝ) < 0.825 := by
      rw [Real.sqrt_lt' (by norm_num)]
      push_cast
      norm_num
    constructor
    · push_cast
      nlinarith
    · push_cast
      nlinarith
  refine ⟨?_, by rw [hfm]; exact hvar, ?_⟩
  · simp only [calculateVariations, hfm]
    rw [if_neg (by norm_num), if_pos (by norm_num), hvar, hsqrt]
    norm_num
  · intro h
    have h2 : ((82 : ℝ) / 100) ^ 2 = ((2 : ℚ)/3 : ℚ) := by
      rw [h, Real.sq_sqrt (by positivity)]
    push_cast at h2
    norm_num at h2

/-- C7 amended: for every metric, the variation entry is present exactly when
at least two values are present, and then equals the population standard
deviation (squared deviations divided by N) rounded to two decimals
(x100, round, /100); with fewer than two values it is omitted, not zero. -/
theorem C7_variation_formula :
    ∀ (dataPoints : List DataPoint) (m : Metric),
      calculateVariations dataPoints m =
        if 2 ≤ (metricValues m dataPoints).length then
          some (((round (Real.sqrt ((popVariance (metricValues m dataPoints) : ℚ) : ℝ) * 100) : ℤ) : ℝ) / 100)
        else none := by
  intro points m
  by_cases h1 : points.length ≤ 1
  · have h2 : (metricValues m points).length ≤ 1 :=
      le_trans (List.length_filterMap_le _ _) h1
    simp only [calculateVariations, if_pos h1, if_neg (by omega :
      ¬ 2 ≤ (metricValues m points).length)]
  · by_cases h2 : 1 < (metricValues m points).length
    · simp only [calculateVariations, if_neg h1, if_pos h2, if_pos (by omega :
        2 ≤ (metricValues m points).length)]
    · simp only [calculateVariations, if_neg h1, if_neg h2, if_neg (by omega :
        ¬ 2 ≤ (metricValues m points).length)]

/-- C8 counterexample: a single provider response 4.6 minutes old is
classified fresh, although its average age in minutes is strictly below 5,
because the code rounds the age to 5 whole minutes before comparing. -/
theorem C8_counterexample :
    calculateDataFreshness [freshEntry] 276000 = "fresh"
    ∧ (276000 : ℚ) / (1000 * 60) < 5
    ∧ "fresh" ≠ "very-fresh" := by
  have hfm : [freshEntry].filterMap CloudEntry.timestamp = [0] := rfl
  refine ⟨?_, by norm_num, by decide⟩
  simp only [calculateDataFreshness, hfm]
  norm_num [round_eq]

/-- C8 amended: the thresholds apply to the average age rounded to whole
minutes, which shifts each boundary down by half a minute on the true
average: below 4.5 minutes very-fresh, below 14.5 fresh, below 59.5 moderate,
otherwise stale; unknown only when no timestamp parses. -/
theorem C8_freshness_thresholds :
    ∀ (cloudData : List CloudEntry) (now : ℚ),
      calculateDataFreshness cloudData now =
        (let timestamps := cloudData.filterMap CloudEntry.timestamp
         if timestamps.length = 0 then "unknown"
         else
           let avgMinutes := ((timestamps.map fun t => now - t).sum /
             (timestamps.length : ℚ)) / (1000 * 60)
           if avgMinutes < 9/2 then "very-fresh"
           else if avgMinutes < 29/2 then "fresh"
           else if avgMinutes < 119/2 then "moderate"
           else "stale") := by
  intro cloudData now
  have key : ∀ x : ℚ,
      (if round x < 5 then "very-fresh"
       else if round x < 15 then "fresh"
       else if round x < 60 then "moderate"
       else "stale")
      = (if x < 9/2 then "very-fresh"
         else if x < 29/2 then "fresh"
         else if x < 119/2 then "moderate"
         else "stale") := by
    intro x
    exact if_congr ((round_lt_int x 5).trans (by norm_num)) rfl
      (if_congr ((round_lt_int x 15).trans (by norm_num)) rfl
        (if_congr ((round_lt_int x 60).trans (by norm_num)) rfl rfl))
  by_cases h0 : (cloudData.filterMap CloudEntry.timestamp).length = 0
  · simp only [calculateDataFreshness, if_pos h0]
  · simp only [calculateDataFreshness, if_neg h0]
    rw [key]

/-- C3: with zero contributing providers the cross-cloud core throws the
explicit no-provider error and its handler returns a 500 failure response with
the thrown message, never a reading; the UI-facing aggregation route, however,
answers the same total failure with a canned placeholder reading (temperature
20, humidity 65) at status 503, the defect the spec calls out. -/
theorem C3_total_failure :
    (∀ (timestamp : String) (now : ℚ),
      createCrossCloudAggregation [] timestamp now
        = .error "No cloud provider data available")
    ∧ (∀ (timestamp : String) (now : ℚ) (e1 e2 e3 : String),
      crossCloudHandler
          [("aws", .error e1), ("azure", .error e2), ("gcp", .error e3)]
          timestamp now
        = .err 500 "No cloud provider data available")
    ∧ routeGET (some "Paris") true
        (.error "Aggregation service responded with status: 500")
      = (503,
          .mock
            { locationId := "paris", locationName := "Paris", agreement := 0,
              temperature := 20, humidity := 65,
              description := "Service Unavailable", windSpeed := 0,
              pressure := 1013, precipitation := 0, sunrise := "6:18 AM",
              sunset := "7:27 PM" }
            "All cloud providers are currently unavailable") :=
  ⟨fun _ _ => rfl, fun _ _ _ _ _ => rfl, rfl⟩

/-- C10 witness: one successful source with humidity 80 and no temperature. -/
theorem C10_no_temp_no_error_witness :
    ∃ agg, createAggregatedWeather [srcTH none (some 80)] = .ok agg
      ∧ agg.temperature = JSNum.nan
      ∧ agg.humidity.isFinite = false
      ∧ (agg.humidity = JSNum.nan ↔ optSum SourceReading.humidity [srcTH none (some 80)] = 0)
      ∧ agg.pressure.isFinite = false
      ∧ (agg.pressure = JSNum.nan ↔ optSum SourceReading.pressure [srcTH none (some 80)] = 0)
      ∧ agg.windSpeed.isFinite = false
      ∧ (agg.windSpeed = JSNum.nan ↔ optSum SourceReading.windSpeed [srcTH none (some 80)] = 0)
      ∧ agg.windDirection.isFinite = false
      ∧ agg.visibility.isFinite = false
      ∧ agg.cloudiness.isFinite = false
      ∧ agg.confidence = JSNum.val 0 :=
  C10_no_temp_no_error [srcTH none (some 80)] (by decide) (by decide)
